import Mathlib

/-
Verification of the money-saver-app ledger engine.

The definitions below are a shallow embedding of the Python sources:
  src/models/data_model.py          (desktop DataModel)
  src/web/models/data_model.py      (web DataModel)
  src/controllers/main_controller.py (desktop MainController)
  src/web/app.py                    (web handlers)
  src/utils/helpers.py, src/web/utils/helpers.py (convert_currency)
  src/desktop/utils/config.py       (category constants)
Python floats are modelled as rationals; the mutable transaction store is
modelled as an explicit list of transactions threaded through operations.
-/

namespace BudgetSaver

/-- Internal category constants from src/desktop/utils/config.py. -/
def DISTRIBUTABLE_CATEGORY : String := "__distributable__"

/-- Internal Transfer-Out category constant from src/desktop/utils/config.py. -/
def TRANSFER_OUT_CATEGORY : String := "__transfer_out__"

/-- Internal Salary/Income category constant from src/desktop/utils/config.py. -/
def SALARY_CATEGORY : String := "__salary__"

/-- One recorded money movement (dataclass Transaction in data_model.py).
`action` is the raw string field ('add' or 'spend' in all call sites). -/
structure Transaction where
  amount : Rat
  action : String
  category : String
  timestamp : String
  note : Option String := none
  original_currency : Option String := none
  original_amount : Option Rat := none
deriving DecidableEq, Repr

/-- An exchange-rate table (Python dict currency code -> base-relative rate),
modelled as an association list with unique keys looked up front to back. -/
abbrev RateTable : Type := List (String × Rat)

/-- rates.get(code, 1.0) in convert_currency: the stored rate, defaulting
to 1 for a code absent from the table. -/
def lookupRate (rates : RateTable) (code : String) : Rat :=
  match List.lookup code rates with
  | some r => r
  | none => 1

/-- The table convert_currency actually uses: the module-level _active_rates
dict when it is non-empty, otherwise the EXCHANGE_RATES default table
(src/utils/helpers.py lines 45-49). -/
def effectiveRates (active_rates default_rates : RateTable) : RateTable :=
  if active_rates = ([] : List (String × Rat)) then default_rates else active_rates

/-- convert_currency from src/utils/helpers.py (identical in
src/web/utils/helpers.py): returns amount unchanged when the codes are
equal, otherwise amount / rate(from) * rate(to) over the effective table. -/
def convert_currency (active_rates default_rates : RateTable)
    (amount : Rat) (from_code to_code : String) : Rat :=
  if from_code = to_code then amount
  else
    amount / lookupRate (effectiveRates active_rates default_rates) from_code
      * lookupRate (effectiveRates active_rates default_rates) to_code

/-- The signed contribution of one transaction to a running total:
`total += amount` for an 'add', `total -= amount` otherwise
(the else-branch of the loops in get_category_balance / get_total_budget). -/
def signedAmount (t : Transaction) : Rat :=
  if t.action = "add" then t.amount else -t.amount

/-- DataModel.get_category_balance: sum of signed amounts over the
transactions whose category equals the argument (identical loop in the
desktop and web variants). -/
def get_category_balance (ts : List Transaction) (category : String) : Rat :=
  ((ts.filter (fun t => t.category == category)).map signedAmount).sum

/-- DataModel.get_total_budget: sum of signed amounts over all transactions,
skipping a transaction when the exclusion list is non-empty (Python
truthiness of the list) and contains its category. -/
def get_total_budget (ts : List Transaction) (exclude_categories : List String) : Rat :=
  ((ts.filter (fun t =>
      !(!exclude_categories.isEmpty && exclude_categories.contains t.category))).map
    signedAmount).sum

/-- Sum of the amounts of 'add' transactions in one category (the claim
formulas' Credit sums; also the `transferred` sum of
get_distributable_balance). -/
def sum_added (ts : List Transaction) (category : String) : Rat :=
  ((ts.filter (fun t => t.category == category && t.action == "add")).map
    Transaction.amount).sum

/-- Sum of the amounts of 'spend' transactions in one category. -/
def sum_spent (ts : List Transaction) (category : String) : Rat :=
  ((ts.filter (fun t => t.category == category && t.action == "spend")).map
    Transaction.amount).sum

/-- Sum of the amounts of 'add' transactions in every category other than
the given one (the `allocated` sum of get_distributable_balance). -/
def sum_added_excluding (ts : List Transaction) (category : String) : Rat :=
  ((ts.filter (fun t => t.category != category && t.action == "add")).map
    Transaction.amount).sum

/-- Desktop DataModel.get_distributable_balance
(src/models/data_model.py lines 284-299): transferred minus allocated,
where transferred sums the Distributable 'add' amounts and allocated sums
the 'add' amounts of every other category. No 'spend' term appears. -/
def get_distributable_balance (ts : List Transaction) : Rat :=
  let transferred :=
    ((ts.filter (fun t =>
        t.category == DISTRIBUTABLE_CATEGORY && t.action == "add")).map
      Transaction.amount).sum
  let allocated :=
    ((ts.filter (fun t =>
        t.category != DISTRIBUTABLE_CATEGORY && t.action == "add")).map
      Transaction.amount).sum
  transferred - allocated

/-- The distributable-balance formula as the specification states it
(spec.md section 4.4): Credits into Distributable, minus Debits from
Distributable, minus Credits into every other category. -/
def specDistributableFormula (ts : List Transaction) : Rat :=
  sum_added ts DISTRIBUTABLE_CATEGORY
    - sum_spent ts DISTRIBUTABLE_CATEGORY
    - sum_added_excluding ts DISTRIBUTABLE_CATEGORY

end BudgetSaver

namespace BudgetSaver.Web

/-- Web DataModel.get_distributable_balance
(src/web/models/data_model.py lines 325-339): transferred minus returned
minus allocated, where returned sums the Distributable 'spend' amounts. -/
def get_distributable_balance (ts : List Transaction) : Rat :=
  let transferred :=
    ((ts.filter (fun t =>
        t.category == DISTRIBUTABLE_CATEGORY && t.action == "add")).map
      Transaction.amount).sum
  let returned :=
    ((ts.filter (fun t =>
        t.category == DISTRIBUTABLE_CATEGORY && t.action == "spend")).map
      Transaction.amount).sum
  let allocated :=
    ((ts.filter (fun t =>
        t.category != DISTRIBUTABLE_CATEGORY && t.action == "add")).map
      Transaction.amount).sum
  transferred - returned - allocated

end BudgetSaver.Web

namespace BudgetSaver

/-- The currency-normalisation block repeated at the top of the controller
operations (e.g. main_controller.py lines 374-378): when a truthy input
currency differs from the main currency the amount is converted and the
original pair is kept, otherwise the amount passes through with no pair.
Returns (converted, original_currency, original_amount). -/
def convertInput (active_rates default_rates : RateTable) (main_currency : String)
    (amount : Rat) (input_currency : Option String) : Rat × Option String × Option Rat :=
  match input_currency with
  | some c =>
      if c ≠ "" ∧ c ≠ main_currency then
        (convert_currency active_rates default_rates amount c main_currency, some c, some amount)
      else (amount, none, none)
  | none => (amount, none, none)

/-- Outcome of MainController.transfer_to_savings: the two ledgers after the
operation and whether the guard rejected it. -/
structure TransferResult where
  expenses : List Transaction
  savings : List Transaction
  rejected : Bool
deriving DecidableEq, Repr

/-- MainController.transfer_to_savings (main_controller.py lines 371-411):
convert the input, reject when the converted amount exceeds
`expenses_model.get_total_budget()` (no exclusion argument), otherwise
append the Transfer-Out 'spend' in Expenses and the tagged Distributable
'add' in Savings. The web handler (app.py lines 540-561) performs the same
guard and the same two appends. -/
def transfer_to_savings (active_rates default_rates : RateTable) (main_currency : String)
    (expenses savings : List Transaction) (amount : Rat) (input_currency : Option String)
    (timestamp : String) : TransferResult :=
  let ci := convertInput active_rates default_rates main_currency amount input_currency
  let remaining := get_total_budget expenses []
  if remaining < ci.1 then
    ⟨expenses, savings, true⟩
  else
    ⟨expenses ++ [{ amount := ci.1, action := "spend", category := TRANSFER_OUT_CATEGORY,
                    timestamp := timestamp, note := none,
                    original_currency := ci.2.1, original_amount := ci.2.2 }],
     savings ++ [{ amount := ci.1, action := "add", category := DISTRIBUTABLE_CATEGORY,
                   timestamp := timestamp, note := some "__transfer__",
                   original_currency := ci.2.1, original_amount := ci.2.2 }],
     false⟩

/-- MainController._get_total_transferred (main_controller.py lines 433-437):
sum of the 'spend' amounts recorded under Transfer-Out in the Expenses
ledger. -/
def get_total_transferred (ets : List Transaction) : Rat :=
  ((ets.filter (fun t =>
      t.category == TRANSFER_OUT_CATEGORY && t.action == "spend")).map
    Transaction.amount).sum

/-- The quantity named by the claim: Transfer-Out debits net of returns
(spec.md section 4.4, total_transferred_to_savings), i.e. the Transfer-Out
'spend' sum minus the Transfer-Out 'add' sum. -/
def specNetTransferred (ets : List Transaction) : Rat :=
  get_total_transferred ets
    - ((ets.filter (fun t =>
        t.category == TRANSFER_OUT_CATEGORY && t.action == "add")).map
      Transaction.amount).sum

/-- DataModel.update_transaction_amount: in-place rewrite of the amount and
original pair of a transaction. -/
def update_transaction_amount (t : Transaction) (new_amount : Rat)
    (new_original_amount : Option Rat) (new_original_currency : Option String) : Transaction :=
  { t with amount := new_amount,
           original_amount := new_original_amount,
           original_currency := new_original_currency }

/-- In-place mutation of the first list element equal to the target
(models rewriting the referenced Transaction object inside the store). -/
def replaceFirst : List Transaction → Transaction → Transaction → List Transaction
  | [], _, _ => []
  | t :: ts, target, t' => if t = target then t' :: ts else t :: replaceFirst ts target t'

/-- MainController.delete_income (main_controller.py lines 462-475): refuse
(returning the ledger unchanged) while the transferred total is positive,
otherwise remove the first transaction equal to the target
(list.remove in delete_transaction_by_ref). -/
def delete_income (ets : List Transaction) (target : Transaction) : List Transaction × Bool :=
  if 0 < get_total_transferred ets then (ets, false)
  else (ets.erase target, true)

/-- MainController.edit_income (main_controller.py lines 439-460): convert
the input, refuse when the transferred total is positive and the converted
amount is below it, otherwise rewrite the target transaction in place. -/
def edit_income (active_rates default_rates : RateTable) (main_currency : String)
    (ets : List Transaction) (target : Transaction) (new_amount : Rat)
    (input_currency : Option String) : List Transaction × Bool :=
  let ci := convertInput active_rates default_rates main_currency new_amount input_currency
  let total_transferred := get_total_transferred ets
  if 0 < total_transferred ∧ ci.1 < total_transferred then (ets, false)
  else (replaceFirst ets target (update_transaction_amount target ci.1 ci.2.2 ci.2.1), true)

/-- The per-transaction step of DataModel.recalculate_foreign_amounts: a
transaction with a truthy original_currency and a present original_amount
gets its amount recomputed from the original pair via convert_currency;
every other transaction is untouched. -/
def recalcTransaction (active_rates default_rates : RateTable) (currency : String)
    (t : Transaction) : Transaction :=
  match t.original_currency, t.original_amount with
  | some oc, some oa =>
      if oc = "" then t
      else { t with amount := convert_currency active_rates default_rates oa oc currency }
  | some _, none => t
  | none, _ => t

/-- DataModel.recalculate_foreign_amounts (desktop lines 236-242, web lines
218-225): recompute the stored amount of every foreign-input transaction
from its unmodified original pair and the active rates. -/
def recalculate_foreign_amounts (active_rates default_rates : RateTable) (currency : String)
    (ts : List Transaction) : List Transaction :=
  ts.map (recalcTransaction active_rates default_rates currency)

/-- DataModel.clear_category_tagged (desktop lines 263-269, web lines
196-208): keep exactly the transactions that do not match both the category
and the note tag. -/
def clear_category_tagged (ts : List Transaction) (category tag : String) : List Transaction :=
  ts.filter (fun t => !(t.category == category && t.note == some tag))

/-- MainController.clear_expense_data (main_controller.py lines 310-321):
clear every Expenses transaction, then remove the '__transfer__'-tagged
Distributable transactions from the Savings ledger. Returns
(expenses, savings) after the operation. -/
def clear_expense_data (_expenses savings : List Transaction) :
    List Transaction × List Transaction :=
  ([], clear_category_tagged savings DISTRIBUTABLE_CATEGORY "__transfer__")

end BudgetSaver

namespace BudgetSaver.Web

/-- _get_net_transferred (src/web/app.py lines 46-59): '__transfer__'-tagged
Distributable 'add' amounts minus '__transfer_back__'-tagged Distributable
'spend' amounts, over the Savings ledger. -/
def get_net_transferred (ts : List Transaction) : Rat :=
  let sent :=
    ((ts.filter (fun t =>
        t.category == DISTRIBUTABLE_CATEGORY && t.action == "add"
          && t.note == some "__transfer__")).map
      Transaction.amount).sum
  let returned :=
    ((ts.filter (fun t =>
        t.category == DISTRIBUTABLE_CATEGORY && t.action == "spend"
          && t.note == some "__transfer_back__")).map
      Transaction.amount).sum
  sent - returned

/-- Outcome of the web Return-to-Expenses handler: both ledgers after the
operation and the actually returned (possibly clamped) amount. -/
structure ReturnResult where
  savings : List Transaction
  expenses : List Transaction
  actual : Rat
deriving DecidableEq, Repr

/-- The Return-to-Expenses handler (src/web/app.py lines 283-312): clamp the
converted request to min(distributable, net transferred), record the
clamped amount as a tagged Distributable 'spend' in Savings and a tagged
Transfer-Out 'add' in Expenses, and report the clamped amount. -/
def return_to_expenses (savings expenses : List Transaction) (converted : Rat)
    (orig_curr : Option String) (orig_amt : Option Rat) (timestamp : String) : ReturnResult :=
  let distributable := Web.get_distributable_balance savings
  let net_transferred := get_net_transferred savings
  let max_returnable := min distributable net_transferred
  let actual := min converted max_returnable
  ⟨savings ++ [{ amount := actual, action := "spend", category := DISTRIBUTABLE_CATEGORY,
                 timestamp := timestamp, note := some "__transfer_back__",
                 original_currency := orig_curr, original_amount := orig_amt }],
   expenses ++ [{ amount := actual, action := "add", category := TRANSFER_OUT_CATEGORY,
                  timestamp := timestamp, note := some "__transfer_back__",
                  original_currency := orig_curr, original_amount := orig_amt }],
   actual⟩

/-- The web Clear-All-Expense-Data handler (src/web/app.py lines 576-585):
clear every Expenses transaction, then remove the '__transfer__'-tagged and
then the '__transfer_back__'-tagged Distributable transactions from the
Savings ledger. Returns (expenses, savings). -/
def clear_expense_data (_expenses savings : List Transaction) :
    List Transaction × List Transaction :=
  ([], clear_category_tagged
        (clear_category_tagged savings DISTRIBUTABLE_CATEGORY "__transfer__")
        DISTRIBUTABLE_CATEGORY "__transfer_back__")

end BudgetSaver.Web

namespace BudgetSaver.Load

/-- A parsed JSON value, as json.loads produces it. -/
inductive JVal where
  | jnull : JVal
  | jbool : Bool → JVal
  | jnum : Rat → JVal
  | jstr : String → JVal
  | jarr : List JVal → JVal
  | jobj : List (String × JVal) → JVal

/-- The Python exceptions relevant to DataModel._load_data. -/
inductive PyError where
  | jsonDecodeError : PyError
  | keyError : PyError
  | typeError : PyError
  | attributeError : PyError
deriving DecidableEq, Repr

/-- The keyword names the Transaction dataclass accepts. -/
def transactionFields : List String :=
  ["amount", "action", "category", "timestamp", "note",
   "original_currency", "original_amount"]

/-- The Transaction dataclass fields without a default value. -/
def requiredFields : List String :=
  ["amount", "action", "category", "timestamp"]

/-- Transaction.from_dict(data) = Transaction(**data): the call raises
TypeError when a key is not a dataclass field name or a field without a
default is missing; otherwise the record is built from the dict as given
(field values are not validated). -/
def tx_from_dict (fields : List (String × JVal)) :
    Except PyError (List (String × JVal)) :=
  if fields.all (fun kv => transactionFields.contains kv.1)
      && requiredFields.all (fun k => (fields.map Prod.fst).contains k) then
    Except.ok fields
  else
    Except.error PyError.typeError

/-- The loop `[Transaction.from_dict(t) for t in data.get('transactions', [])]`
applied to the value found under 'transactions': iterating a list visits its
elements; from_dict of anything but a dict raises TypeError; iterating a
non-empty dict visits its string keys (so from_dict raises TypeError) and
iterating a string visits its characters; other values are not iterable. -/
def parse_transactions : JVal → Except PyError (List (List (String × JVal)))
  | JVal.jarr elems =>
      elems.mapM (fun e =>
        match e with
        | JVal.jobj fields => tx_from_dict fields
        | _ => Except.error PyError.typeError)
  | JVal.jobj [] => Except.ok []
  | JVal.jobj (_ :: _) => Except.error PyError.typeError
  | JVal.jstr s => if s = "" then Except.ok [] else Except.error PyError.typeError
  | _ => Except.error PyError.typeError

/-- The transaction-loading part of DataModel._load_data
(src/models/data_model.py lines 55-58) applied to the JSON value returned
by json.loads: data.get('transactions', []) on a dict, AttributeError on
anything else. -/
def load_body (data : JVal) : Except PyError (List (List (String × JVal))) :=
  match data with
  | JVal.jobj fields =>
      match fields.lookup "transactions" with
      | some v => parse_transactions v
      | none => Except.ok []
  | _ => Except.error PyError.attributeError

/-- What _load_data does with an exception from its body. -/
inductive LoadOutcome where
  | loaded : List (List (String × JVal)) → LoadOutcome
  | emptyFallback : LoadOutcome
  | raised : PyError → LoadOutcome

/-- DataModel._load_data (src/models/data_model.py lines 44-69) from the
point where json.loads has produced a value: the surrounding
`except (json.JSONDecodeError, KeyError)` handler catches only those two
exception classes and substitutes empty data; any other exception
propagates to the caller. -/
def load_data_from_json (data : JVal) : LoadOutcome :=
  match load_body data with
  | Except.ok txs => LoadOutcome.loaded txs
  | Except.error e =>
      if e = PyError.jsonDecodeError ∨ e = PyError.keyError then
        LoadOutcome.emptyFallback
      else
        LoadOutcome.raised e

end BudgetSaver.Load

namespace BudgetSaver

/-- A single Distributable 'spend' of 5 (counterexample input for the
distributable-balance formula). -/
def distributableSpendTx : Transaction :=
  { amount := 5, action := "spend", category := DISTRIBUTABLE_CATEGORY, timestamp := "t0" }

/-- Salary credit of 500 used in the transfer-guard counterexample. -/
def salary500 : Transaction :=
  { amount := 500, action := "add", category := SALARY_CATEGORY, timestamp := "t1" }

/-- Transfer-Out debit of 200 used in the transfer-guard counterexample. -/
def transferOut200 : Transaction :=
  { amount := 200, action := "spend", category := TRANSFER_OUT_CATEGORY, timestamp := "t2" }

/-- Transfer-Out debit of 100 used in the income-guard witness. -/
def transferOut100 : Transaction :=
  { amount := 100, action := "spend", category := TRANSFER_OUT_CATEGORY, timestamp := "t3" }

/-- Salary credit of 300 (the income transaction in the income-guard witness). -/
def salary300 : Transaction :=
  { amount := 300, action := "add", category := SALARY_CATEGORY, timestamp := "t4" }

/-- An ordinary user transaction in a Savings category (clear-data frame
witness). -/
def travelAdd50 : Transaction :=
  { amount := 50, action := "add", category := "Travel", timestamp := "t5" }

/-- Claim C3: convert_currency returns the amount unchanged when the codes
are equal; otherwise it divides by the effective rate of the source code and
multiplies by the effective rate of the target code, where a code absent
from the effective table gets rate 1. The function is total over all inputs
(it never fails). -/
theorem convert_currency_spec (active_rates default_rates : RateTable)
    (amount : Rat) (a b : String) :
    (a = b → convert_currency active_rates default_rates amount a b = amount) ∧
    (a ≠ b → convert_currency active_rates default_rates amount a b =
      amount / lookupRate (effectiveRates active_rates default_rates) a
        * lookupRate (effectiveRates active_rates default_rates) b) ∧
    (∀ code, List.lookup code (effectiveRates active_rates default_rates) = none →
      lookupRate (effectiveRates active_rates default_rates) code = 1) := by
  refine ⟨fun h => ?_, fun h => ?_, fun code h => ?_⟩
  · simp [convert_currency, h]
  · simp [convert_currency, h]
  · simp [lookupRate, h]

/-- Claim C3 witness: a concrete conversion between distinct codes through a
table that lacks the target code. -/
theorem convert_currency_spec_witness :
    convert_currency [("USD", 27/25)] [] 100 "USD" "EUR" =
      100 / lookupRate (effectiveRates [("USD", 27/25)] []) "USD"
        * lookupRate (effectiveRates [("USD", 27/25)] []) "EUR" ∧
    lookupRate (effectiveRates [("USD", 27/25)] []) "EUR" = 1 :=
  ⟨(convert_currency_spec [("USD", 27/25)] [] 100 "USD" "EUR").2.1 (by decide),
   (convert_currency_spec [("USD", 27/25)] [] 100 "USD" "EUR").2.2 "EUR" (by decide)⟩

/-- Claim C1 (counterexample): on a ledger holding a single Distributable
'spend', the desktop get_distributable_balance differs from the claimed
formula, because it ignores the Distributable 'spend' sum. -/
theorem get_distributable_balance_counterexample :
    get_distributable_balance [distributableSpendTx] ≠
      specDistributableFormula [distributableSpendTx] := by
  intro h
  simp [get_distributable_balance, specDistributableFormula, sum_added, sum_spent,
    sum_added_excluding, distributableSpendTx, DISTRIBUTABLE_CATEGORY] at h

/-- Claim C1 (amended): the web get_distributable_balance equals the claimed
formula adds(Distributable) - spends(Distributable) - adds(all other
categories), while the desktop variant omits the spend term and equals
adds(Distributable) - adds(all other categories). -/
theorem get_distributable_balance_by_variant (ts : List Transaction) :
    Web.get_distributable_balance ts = specDistributableFormula ts ∧
    get_distributable_balance ts =
      sum_added ts DISTRIBUTABLE_CATEGORY - sum_added_excluding ts DISTRIBUTABLE_CATEGORY :=
  ⟨rfl, rfl⟩

/-- Claim C7: the web Return-to-Expenses handler records and reports exactly
min(converted request, distributable balance, net transferred), so the
returned amount never exceeds the net transferred total nor the
distributable pool. -/
theorem return_to_expenses_clamp (sts ets : List Transaction) (converted : Rat)
    (oc : Option String) (oa : Option Rat) (time : String) :
    (Web.return_to_expenses sts ets converted oc oa time).actual =
      min converted (min (Web.get_distributable_balance sts) (Web.get_net_transferred sts)) ∧
    (Web.return_to_expenses sts ets converted oc oa time).actual ≤
      Web.get_net_transferred sts ∧
    (Web.return_to_expenses sts ets converted oc oa time).actual ≤
      Web.get_distributable_balance sts := by
  refine ⟨rfl, ?_, ?_⟩
  · show min converted (min (Web.get_distributable_balance sts) (Web.get_net_transferred sts)) ≤
      Web.get_net_transferred sts
    exact le_trans (min_le_right _ _) (min_le_right _ _)
  · show min converted (min (Web.get_distributable_balance sts) (Web.get_net_transferred sts)) ≤
      Web.get_distributable_balance sts
    exact le_trans (min_le_right _ _) (min_le_left _ _)

/-- Applying the recalculation step twice is the same as applying it once:
the step only rewrites the amount, never the original pair it reads. -/
lemma recalcTransaction_idem (active_rates default_rates : RateTable) (currency : String)
    (t : Transaction) :
    recalcTransaction active_rates default_rates currency
      (recalcTransaction active_rates default_rates currency t) =
    recalcTransaction active_rates default_rates currency t := by
  rcases t with ⟨amt, act, cat, time, note, oc, oa⟩
  cases oc with
  | none => rfl
  | some c =>
    cases oa with
    | none => rfl
    | some a =>
      by_cases hc : c = ""
      · simp [recalcTransaction, hc]
      · simp [recalcTransaction, hc]

/-- Claim C8: recalculate_foreign_amounts is idempotent for a fixed rate
table and accounting currency — the second pass recomputes every amount
from the unmodified original pair and yields the same list. -/
theorem recalculate_foreign_amounts_idempotent (active_rates default_rates : RateTable)
    (currency : String) (ts : List Transaction) :
    recalculate_foreign_amounts active_rates default_rates currency
      (recalculate_foreign_amounts active_rates default_rates currency ts) =
    recalculate_foreign_amounts active_rates default_rates currency ts := by
  unfold recalculate_foreign_amounts
  rw [List.map_map]
  exact List.map_congr_left fun t _ =>
    recalcTransaction_idem active_rates default_rates currency t

/-- Claim C9: on the parsed payload {"transactions": [{}]} — a transaction
dict missing the required dataclass fields — the TypeError raised by
Transaction.from_dict escapes the JSONDecodeError/KeyError handler of
_load_data and propagates to the caller instead of falling back to the
empty state. -/
theorem load_data_raises_typeError :
    Load.load_data_from_json
      (Load.JVal.jobj [("transactions", Load.JVal.jarr [Load.JVal.jobj []])]) =
    Load.LoadOutcome.raised Load.PyError.typeError := rfl

end BudgetSaver

namespace BudgetSaver

/-- Claim C2 (counterexample): with income 500 and 200 already transferred
out, the Expenses total excluding Transfer-Out is 500, yet
transfer_to_savings(400) is rejected — the code guards against the total
with no exclusion (300), not against the Transfer-Out-excluded total. -/
theorem transfer_to_savings_counterexample :
    (transfer_to_savings [] [] "EUR" [salary500, transferOut200] [] 400 none "t9").rejected
      = true ∧
    ¬ get_total_budget [salary500, transferOut200] [TRANSFER_OUT_CATEGORY] < 400 := by
  have hrem : get_total_budget [salary500, transferOut200] [] = 300 := by
    simp +decide [get_total_budget, signedAmount, salary500, transferOut200, SALARY_CATEGORY,
      TRANSFER_OUT_CATEGORY, List.filter_cons]
    norm_num
  have hexcl : get_total_budget [salary500, transferOut200] [TRANSFER_OUT_CATEGORY] = 500 := by
    simp +decide [get_total_budget, signedAmount, salary500, transferOut200, SALARY_CATEGORY,
      TRANSFER_OUT_CATEGORY, List.filter_cons]
  constructor
  · norm_num [transfer_to_savings, convertInput, hrem]
  · rw [hexcl]
    norm_num

/-- Claim C2 (amended): transfer_to_savings is rejected exactly when the
converted amount exceeds the Expenses ledger's total with no category
excluded, and on rejection both ledgers are returned unchanged (no 'spend'
appended in Expenses, no 'add' appended in Savings). -/
theorem transfer_to_savings_guard (active_rates default_rates : RateTable)
    (main_currency : String) (ets sts : List Transaction) (amount : Rat)
    (input_currency : Option String) (time : String) :
    ((transfer_to_savings active_rates default_rates main_currency ets sts amount
        input_currency time).rejected = true ↔
      get_total_budget ets [] <
        (convertInput active_rates default_rates main_currency amount input_currency).1) ∧
    (get_total_budget ets [] <
        (convertInput active_rates default_rates main_currency amount input_currency).1 →
      transfer_to_savings active_rates default_rates main_currency ets sts amount
        input_currency time = ⟨ets, sts, true⟩) := by
  by_cases h : get_total_budget ets [] <
      (convertInput active_rates default_rates main_currency amount input_currency).1
  · refine ⟨?_, fun _ => ?_⟩
    · simp [transfer_to_savings, h]
    · simp [transfer_to_savings, h]
  · refine ⟨?_, fun hc => absurd hc h⟩
    simp [transfer_to_savings, h]

/-- Claim C2 witness: the guard theorem applied at a concrete rejected
transfer, leaving both ledgers untouched. -/
theorem transfer_to_savings_guard_witness :
    transfer_to_savings [] [] "EUR" [salary500, transferOut200] [] 400 none "t9" =
      ⟨[salary500, transferOut200], [], true⟩ :=
  (transfer_to_savings_guard [] [] "EUR" [salary500, transferOut200] [] 400 none "t9").2
    (by
      simp +decide [get_total_budget, signedAmount, salary500, transferOut200, convertInput,
        SALARY_CATEGORY, TRANSFER_OUT_CATEGORY, List.filter_cons]
      norm_num)

/-- Claim C10: clearing all Expenses data empties the Expenses ledger and
removes from the Savings ledger exactly the Distributable transactions
whose note is the transfer tag '__transfer__' (desktop), resp.
'__transfer__' or '__transfer_back__' (web); every other Savings
transaction is kept. -/
theorem clear_expense_data_frame (ets sts : List Transaction) (t : Transaction) :
    (clear_expense_data ets sts).1 = [] ∧
    (t ∈ (clear_expense_data ets sts).2 ↔
      t ∈ sts ∧ ¬(t.category = DISTRIBUTABLE_CATEGORY ∧ t.note = some "__transfer__")) ∧
    (Web.clear_expense_data ets sts).1 = [] ∧
    (t ∈ (Web.clear_expense_data ets sts).2 ↔
      t ∈ sts ∧ ¬(t.category = DISTRIBUTABLE_CATEGORY ∧
        (t.note = some "__transfer__" ∨ t.note = some "__transfer_back__"))) := by
  refine ⟨rfl, ?_, rfl, ?_⟩
  · simp [clear_expense_data, clear_category_tagged, List.mem_filter, not_and]
    tauto
  · simp [Web.clear_expense_data, clear_category_tagged, List.mem_filter, not_and]
    tauto

/-- Claim C10 witness: a concrete ordinary Savings transaction survives the
desktop clear, via the frame theorem. -/
theorem clear_expense_data_frame_witness :
    travelAdd50 ∈ (clear_expense_data [] [travelAdd50]).2 :=
  (clear_expense_data_frame [] [travelAdd50] travelAdd50).2.1.mpr
    ⟨List.mem_singleton.mpr rfl, by decide⟩

end BudgetSaver

namespace BudgetSaver

/-- One step of the category-balance loop. -/
lemma get_category_balance_cons (t : Transaction) (ts : List Transaction) (c : String) :
    get_category_balance (t :: ts) c =
      (if t.category = c then signedAmount t else 0) + get_category_balance ts c := by
  by_cases h : t.category = c
  · simp [get_category_balance, List.filter_cons, h]
  · simp [get_category_balance, List.filter_cons, h]

/-- One step of the per-category credit sum. -/
lemma sum_added_cons (t : Transaction) (ts : List Transaction) (c : String) :
    sum_added (t :: ts) c =
      (if t.category = c ∧ t.action = "add" then t.amount else 0) + sum_added ts c := by
  by_cases h1 : t.category = c <;> by_cases h2 : t.action = "add" <;>
    simp [sum_added, List.filter_cons, h1, h2]

/-- One step of the per-category debit sum. -/
lemma sum_spent_cons (t : Transaction) (ts : List Transaction) (c : String) :
    sum_spent (t :: ts) c =
      (if t.category = c ∧ t.action = "spend" then t.amount else 0) + sum_spent ts c := by
  by_cases h1 : t.category = c <;> by_cases h2 : t.action = "spend" <;>
    simp [sum_spent, List.filter_cons, h1, h2]

/-- Claim C4: when every recorded action is 'add' or 'spend' (as in every
add_transaction call site), get_category_balance equals the 'add' amount
sum minus the 'spend' amount sum over exactly the transactions whose
category field equals the argument. -/
theorem get_category_balance_correct (ts : List Transaction) (c : String)
    (h : ∀ t ∈ ts, t.action = "add" ∨ t.action = "spend") :
    get_category_balance ts c = sum_added ts c - sum_spent ts c := by
  induction ts with
  | nil => simp [get_category_balance, sum_added, sum_spent]
  | cons t ts ih =>
    have ht := h t (List.mem_cons_self t ts)
    have ih2 := ih (fun x hx => h x (List.mem_cons_of_mem t hx))
    rw [get_category_balance_cons, sum_added_cons, sum_spent_cons, ih2]
    rcases ht with ha | hs
    · have hns : t.action ≠ "spend" := by rw [ha]; decide
      by_cases hc : t.category = c <;>
        simp [signedAmount, ha, hns, hc] <;> ring
    · have hna : t.action ≠ "add" := by rw [hs]; decide
      by_cases hc : t.category = c <;>
        simp [signedAmount, hs, hna, hc] <;> ring

/-- Claim C4 witness: the balance formula at a concrete two-element ledger. -/
theorem get_category_balance_correct_witness :
    get_category_balance [salary500, transferOut200] SALARY_CATEGORY =
      sum_added [salary500, transferOut200] SALARY_CATEGORY
        - sum_spent [salary500, transferOut200] SALARY_CATEGORY :=
  get_category_balance_correct [salary500, transferOut200] SALARY_CATEGORY (by decide)

/-- With an empty exclusion list (Python: a falsy argument) every
transaction is counted. -/
lemma get_total_budget_no_exclude (ts : List Transaction) :
    get_total_budget ts [] = (ts.map signedAmount).sum := by
  simp [get_total_budget]

/-- A sum of single-hit indicator terms over a list not containing the hit. -/
lemma sum_map_ite_of_not_mem (cats : List String) (x : String) (v : Rat)
    (hx : x ∉ cats) :
    (cats.map (fun c => if x = c then v else 0)).sum = 0 := by
  induction cats with
  | nil => rfl
  | cons a l ih =>
    have hne : x ≠ a := fun h => hx (h ▸ List.mem_cons_self a l)
    have hxl : x ∉ l := fun h => hx (List.mem_cons_of_mem a h)
    simp [hne, ih hxl]

/-- A sum of single-hit indicator terms over a duplicate-free list
containing the hit. -/
lemma sum_map_ite_of_mem (cats : List String) (x : String) (v : Rat)
    (hnd : cats.Nodup) (hx : x ∈ cats) :
    (cats.map (fun c => if x = c then v else 0)).sum = v := by
  induction cats with
  | nil => cases hx
  | cons a l ih =>
    rcases List.mem_cons.mp hx with rfl | hxl
    · have hnl : x ∉ l := (List.nodup_cons.mp hnd).1
      simp [sum_map_ite_of_not_mem l x v hnl]
    · have hna : x ≠ a := by
        rintro rfl
        exact (List.nodup_cons.mp hnd).1 hxl
      simp [hna, ih (List.nodup_cons.mp hnd).2 hxl]

/-- Pointwise sums distribute over a mapped list. -/
lemma sum_map_add (l : List String) (f g : String → Rat) :
    (l.map (fun c => f c + g c)).sum = (l.map f).sum + (l.map g).sum := by
  induction l with
  | nil => simp
  | cons a l ih =>
    simp [ih]
    ring

/-- The no-exclusion total is the sum of per-category balances over any
duplicate-free category list covering the ledger. -/
lemma get_total_budget_eq_sum_balances (ts : List Transaction) (cats : List String)
    (hnd : cats.Nodup) (hmem : ∀ t ∈ ts, t.category ∈ cats) :
    get_total_budget ts [] = (cats.map (fun c => get_category_balance ts c)).sum := by
  induction ts with
  | nil =>
    have hz : ∀ c ∈ cats, get_category_balance [] c = (0 : Rat) := by
      intro c _
      rfl
    rw [get_total_budget_no_exclude]
    simp [List.map_congr_left hz]
  | cons t ts ih =>
    have hmem2 : ∀ x ∈ ts, x.category ∈ cats := fun x hx => hmem x (List.mem_cons_of_mem t hx)
    have hstep : cats.map (fun c => get_category_balance (t :: ts) c) =
        cats.map (fun c =>
          (if t.category = c then signedAmount t else 0) + get_category_balance ts c) :=
      List.map_congr_left fun c _ => get_category_balance_cons t ts c
    rw [get_total_budget_no_exclude, List.map_cons, List.sum_cons,
      ← get_total_budget_no_exclude, ih hmem2, hstep, sum_map_add,
      sum_map_ite_of_mem cats t.category (signedAmount t) hnd (hmem t (List.mem_cons_self t ts))]

/-- Claim C5: get_total_budget with an empty exclusion list equals the sum
of get_category_balance over the deduplicated list of categories occurring
in the ledger — internal pseudo-categories included, since their
transactions occur in the ledger like any others. -/
theorem get_total_budget_partition (ts : List Transaction) :
    get_total_budget ts [] =
      (((ts.map Transaction.category).dedup).map (fun c => get_category_balance ts c)).sum :=
  get_total_budget_eq_sum_balances ts ((ts.map Transaction.category).dedup)
    (List.nodup_dedup _)
    (fun t ht => List.mem_dedup.mpr (List.mem_map.mpr ⟨t, ht, rfl⟩))

/-- Amounts of a filtered sublist sum to something non-negative when every
stored amount is non-negative. -/
lemma sum_filter_amount_nonneg (ts : List Transaction) (p : Transaction → Bool)
    (h : ∀ t ∈ ts, 0 ≤ t.amount) :
    0 ≤ ((ts.filter p).map Transaction.amount).sum := by
  apply List.sum_nonneg
  intro x hx
  rcases List.mem_map.mp hx with ⟨t, ht, rfl⟩
  exact h t (List.mem_of_mem_filter ht)

/-- Claim C6: while the transferred-to-savings total net of returns is
positive (amounts being non-negative as recorded), delete_income refuses
and leaves the Expenses ledger unchanged, and edit_income refuses any edit
whose converted amount falls below that net total. -/
theorem income_guard (active_rates default_rates : RateTable) (main_currency : String)
    (ets : List Transaction) (target : Transaction) (new_amount : Rat)
    (input_currency : Option String)
    (hpos : ∀ t ∈ ets, 0 ≤ t.amount)
    (hnet : 0 < specNetTransferred ets) :
    delete_income ets target = (ets, false) ∧
    ((convertInput active_rates default_rates main_currency new_amount input_currency).1 <
        specNetTransferred ets →
      edit_income active_rates default_rates main_currency ets target new_amount
        input_currency = (ets, false)) := by
  have hadds : (0 : Rat) ≤ ((ets.filter (fun t =>
      t.category == TRANSFER_OUT_CATEGORY && t.action == "add")).map Transaction.amount).sum :=
    sum_filter_amount_nonneg ets _ hpos
  have hle : specNetTransferred ets ≤ get_total_transferred ets := by
    unfold specNetTransferred
    linarith
  have hgross : 0 < get_total_transferred ets := lt_of_lt_of_le hnet hle
  constructor
  · simp only [delete_income]
    rw [if_pos hgross]
  · intro hconv
    simp only [edit_income]
    rw [if_pos ⟨hgross, lt_of_lt_of_le hconv hle⟩]

/-- Claim C6 witness: with 100 already transferred out, deleting the income
transaction is refused and so is an edit down to 50, via the guard
theorem. -/
theorem income_guard_witness :
    delete_income [transferOut100, salary300] salary300 = ([transferOut100, salary300], false) ∧
    edit_income [] [] "EUR" [transferOut100, salary300] salary300 50 none =
      ([transferOut100, salary300], false) := by
  have hpos : ∀ t ∈ [transferOut100, salary300], (0 : Rat) ≤ t.amount := by
    intro t ht
    rcases List.mem_cons.mp ht with rfl | ht2
    · norm_num [transferOut100]
    · rcases List.mem_cons.mp ht2 with rfl | ht3
      · norm_num [salary300]
      · cases ht3
  have hnet : (0 : Rat) < specNetTransferred [transferOut100, salary300] := by
    simp +decide [specNetTransferred, get_total_transferred, transferOut100, salary300,
      SALARY_CATEGORY, TRANSFER_OUT_CATEGORY, List.filter_cons]
  have h := income_guard [] [] "EUR" [transferOut100, salary300] salary300 50 none hpos hnet
  refine ⟨h.1, h.2 ?_⟩
  have hnetval : specNetTransferred [transferOut100, salary300] = 100 := by
    simp +decide [specNetTransferred, get_total_transferred, transferOut100, salary300,
      SALARY_CATEGORY, TRANSFER_OUT_CATEGORY, List.filter_cons]
  rw [hnetval]
  norm_num [convertInput]

end BudgetSaver
